import Mathlib

/-!
Shallow embedding of `src/aizec/std/aize_mem.c`: a lexical-scope-bound memory
reclamation runtime consisting of a growable ledger of object pointers
(`struct AizeMemArrayList aize_mem_bound`), a depth counter (`aize_mem_depth`),
and the operations `aize_mem_enter`, `aize_mem_add_mem`, `aize_mem_pop_mem`,
`aize_mem_malloc`, `aize_mem_collect`, `aize_mem_exit`.

Modelling conventions:
- Machine integers are `Nat` with explicit wraparound (`% 2^32` for `uint32_t`,
  wrap-subtraction for `size_t`) where the C can overflow or underflow.
- A C pointer is `Option Nat`: `none` is NULL, `some id` points to heap object
  `id`. The heap is a list of object headers indexed by id.
- The C code allocates raw bytes (`malloc(START_SIZE)`, `realloc(arr,
  capacity * SCALE_FACTOR)`) but indexes `arr` in pointer-sized entries, so the
  model tracks the byte size actually allocated (`arrBytes`) separately from
  the `capacity` field, and exposes the allocated region as `arrBytes / 8`
  slots (`sizeof(AizeBase*) = 8`, LP64).
- Uninitialized memory (fresh `malloc` contents, fresh header fields) is
  explicit: a slot is `Slot.uninit` until written, a header field is `none`
  until written. Reading or dereferencing an uninitialized or out-of-bounds
  value is undefined behavior in C; the model returns `Except.error` there.
- `free` is never called anywhere in `aize_mem.c`; the ghost field `freed`
  records the ids whose storage has been released, so "never freed" is a
  provable statement about the embedding.
-/

namespace AizeMem

/-- `#define START_SIZE 256` -/
def START_SIZE : Nat := 256

/-- `#define SCALE_FACTOR 2` -/
def SCALE_FACTOR : Nat := 2

/-- `#define SHRINK_WHEN 4` -/
def SHRINK_WHEN : Nat := 4

/-- `#define SHRINK_FACTOR 2` (defined in the C file but never used: the
shrink path divides by `SCALE_FACTOR`). -/
def SHRINK_FACTOR : Nat := 2

/-- `sizeof(AizeBase*)` on LP64. -/
def ptrSize : Nat := 8

/-- `2^32`, the modulus of `uint32_t` (`aize_mem_depth`, `AizeBase.depth`). -/
def U32 : Nat := 4294967296

/-- `2^64`, the modulus of `size_t`. -/
def U64 : Nat := 18446744073709551616

/-- `size_t` subtraction with wraparound (for `a`, `b` below `2^64`). -/
def wrapSub64 (a b : Nat) : Nat := (a + (U64 - b)) % U64

/-- A C object pointer: `none` = NULL, `some id` = address of heap object `id`. -/
abbrev Ptr := Option Nat

/-- One pointer-sized cell of the ledger's backing buffer. `uninit` is memory
returned by `malloc`/`realloc` that has never been written. -/
inductive Slot where
  | uninit : Slot
  | val : Ptr → Slot
  deriving DecidableEq, Repr

/-- Modelled from the spec: `struct AizeBase`, declared in `aize_mem.h` (not in
src/): an object header with unsigned `depth` and `ref_count` fields. A field
is `none` while uninitialized (`aize_mem_malloc` obtains the header memory from
`malloc` and never writes it). -/
structure AizeBase where
  depth : Option Nat
  ref_count : Option Nat
  deriving DecidableEq, Repr

/-- The global state of the runtime: the `aize_mem_bound` array list
(`capacity`, `len`, and the contents of the `arr` allocation), the object heap,
the ghost record of released storage, and `aize_mem_depth`. -/
structure AizeState where
  capacity : Nat
  len : Nat
  arrBytes : Nat
  slots : List Slot
  heap : List AizeBase
  freed : List Nat
  depth : Nat
  deriving DecidableEq, Repr

/-- `aize_mem_bound = {0, 0, 0}; aize_mem_depth = 1;` -/
def initState : AizeState :=
  { capacity := 0, len := 0, arrBytes := 0, slots := [], heap := [],
    freed := [], depth := 1 }

/-- `void aize_mem_enter() { aize_mem_depth += 1; }` -/
def aize_mem_enter (s : AizeState) : AizeState :=
  { s with depth := (s.depth + 1) % U32 }

/-- `realloc(arr, newBytes)`: the first `min(oldBytes, newBytes)` bytes are
preserved, any extra region is uninitialized. -/
def growSlots (old : List Slot) (newBytes : Nat) : List Slot :=
  old.take (newBytes / ptrSize) ++
    List.replicate (newBytes / ptrSize - old.length) Slot.uninit

/-- The grow-if-full block at the head of `aize_mem_add_mem`: when
`len == capacity`, either `malloc(START_SIZE)` (256 bytes, while the
`capacity` field is set to 256 entries) for an empty list, or
`realloc(arr, capacity * SCALE_FACTOR)` (again a byte count) otherwise. -/
def growIfFull (s : AizeState) : AizeState :=
  if s.len = s.capacity then
    if s.len = 0 then
      { s with slots := List.replicate (START_SIZE / ptrSize) Slot.uninit,
               arrBytes := START_SIZE, capacity := START_SIZE }
    else
      { s with slots := growSlots s.slots (s.capacity * SCALE_FACTOR),
               arrBytes := s.capacity * SCALE_FACTOR,
               capacity := s.capacity * SCALE_FACTOR }
  else s

/-- `void aize_mem_add_mem(void* mem)`: grow (in bytes!) when `len == capacity`,
then `arr[len] = mem; len += 1;`. The store is undefined behavior when index
`len` lies outside the bytes actually allocated for `arr`. -/
def aize_mem_add_mem (s : AizeState) (mem : Ptr) : Except String AizeState :=
  if (growIfFull s).len < (growIfFull s).slots.length then
    Except.ok { growIfFull s with
                  slots := (growIfFull s).slots.set (growIfFull s).len
                    (Slot.val mem),
                  len := (growIfFull s).len + 1 }
  else
    Except.error "ledger write outside allocated buffer"

/-- `memset(arr + (len-num), 0, num*sizeof(void*))` on the model: the cleared
cells become NULL. -/
def clearRange (l : List Slot) (a b : Nat) : List Slot :=
  (List.range l.length).map
    (fun j => if a ≤ j ∧ j < b then Slot.val (none : Ptr) else l.getD j Slot.uninit)

/-- `void aize_mem_pop_mem(size_t num)`: clear the top `num` cells, decrement
`len`, then shrink when `capacity > SCALE_FACTOR * START_SIZE` and
`len - num < capacity / SHRINK_WHEN` — note `len` has already been decremented,
so `num` is subtracted twice, with `size_t` wraparound. The `memset` is
undefined behavior when `num > len` (pointer below the buffer) or when the
cleared region lies outside the allocated bytes. -/
def aize_mem_pop_mem (s : AizeState) (num : Nat) : Except String AizeState :=
  if s.len < num then
    Except.error "memset below buffer start"
  else if s.slots.length < s.len then
    Except.error "memset outside allocated buffer"
  else if SCALE_FACTOR * START_SIZE < s.capacity ∧
      wrapSub64 (s.len - num) num < s.capacity / SHRINK_WHEN then
    Except.ok { s with
                  slots := growSlots (clearRange s.slots (s.len - num) s.len)
                    (s.capacity / SCALE_FACTOR),
                  len := s.len - num,
                  arrBytes := s.capacity / SCALE_FACTOR,
                  capacity := s.capacity / SCALE_FACTOR }
  else
    Except.ok { s with slots := clearRange s.slots (s.len - num) s.len,
                       len := s.len - num }

/-- `void* aize_mem_malloc(size_t bytes)`: `void* mem = malloc(bytes);
aize_mem_add_mem(mem);` — and no `return` statement, so the function provides
no defined return value (second component `none`). `rawOk` is the outcome of
the raw `malloc`: on success a fresh object with an uninitialized header is
created; on failure `mem` is NULL and is passed to `aize_mem_add_mem` anyway. -/
def aize_mem_malloc (s : AizeState) (_bytes : Nat) (rawOk : Bool) :
    Except String AizeState × Option Ptr :=
  let p : AizeState × Ptr :=
    if rawOk then
      ({ s with heap := s.heap ++ [{ depth := none, ref_count := none }] },
       some s.heap.length)
    else
      (s, none)
  (aize_mem_add_mem p.1 p.2, none)

/-- Result of one iteration of the `aize_mem_collect` scan loop body:
`sbreak` for the `break` branch, `scont heap r` for fall-through to
`num_to_pop++` with the (possibly updated) heap and, when `r = some id`, the
assignment `ret_obj = obj`. -/
inductive StepRes where
  | sbreak : StepRes
  | scont : List AizeBase → Option Nat → StepRes
  deriving DecidableEq, Repr

/-- One iteration of the scan loop of `aize_mem_collect` at index `i`:
`AizeBase* obj = aize_mem_bound.arr[i];` followed by the depth/ref_count
branches. Reading a cell outside the allocation, using an uninitialized cell,
dereferencing NULL, or reading an uninitialized header field is undefined
behavior. -/
def scanStep (slots : List Slot) (curd : Nat) (heap : List AizeBase) (i : Nat) :
    Except String StepRes :=
  match slots[i]? with
  | none => Except.error "ledger read outside allocated buffer"
  | some Slot.uninit => Except.error "use of uninitialized slot"
  | some (Slot.val none) => Except.error "null pointer dereference"
  | some (Slot.val (some id)) =>
    match heap[id]? with
    | none => Except.error "dangling object pointer"
    | some ob =>
      match ob.depth with
      | none => Except.error "read of uninitialized depth"
      | some d =>
        if curd ≤ d then
          match ob.ref_count with
          | none => Except.error "read of uninitialized ref_count"
          | some _ => Except.ok (StepRes.scont heap none)
        else if d = 0 then
          Except.ok (StepRes.scont
            (heap.set id { ob with depth := some ((curd + (U32 - 1)) % U32) })
            (some id))
        else
          Except.ok StepRes.sbreak

/-- `ret_obj` after an iteration: the sentinel branch overwrites it, every
other fall-through leaves it. -/
def updRet (old new : Option Nat) : Option Nat :=
  match new with
  | some id => some id
  | none => old

/-- The scan loop `for (int i = aize_mem_bound.len; i >= 0; i--)` of
`aize_mem_collect`, run from index `i` down to `0`, threading `num_to_pop`,
`ret_obj` and the heap. Returns `(num_to_pop, ret_obj, heap)`. -/
def collectScan (slots : List Slot) (curd : Nat) :
    Nat → List AizeBase → Nat → Option Nat →
    Except String (Nat × Option Nat × List AizeBase)
  | 0, heap, num, ret =>
    match scanStep slots curd heap 0 with
    | Except.error e => Except.error e
    | Except.ok StepRes.sbreak => Except.ok (num, ret, heap)
    | Except.ok (StepRes.scont h r) => Except.ok (num + 1, updRet ret r, h)
  | i + 1, heap, num, ret =>
    match scanStep slots curd heap (i + 1) with
    | Except.error e => Except.error e
    | Except.ok StepRes.sbreak => Except.ok (num, ret, heap)
    | Except.ok (StepRes.scont h r) =>
      collectScan slots curd i h (num + 1) (updRet ret r)

/-- `void aize_mem_collect()`: run the scan starting at index
`aize_mem_bound.len` (one past the top entry), then `aize_mem_pop_mem(num)`,
then re-append `ret_obj` when it was set. -/
def aize_mem_collect (s : AizeState) : Except String AizeState :=
  match collectScan s.slots s.depth s.len s.heap 0 none with
  | Except.error e => Except.error e
  | Except.ok (num, ret, heap1) =>
    match aize_mem_pop_mem { s with heap := heap1 } num with
    | Except.error e => Except.error e
    | Except.ok s2 =>
      match ret with
      | none => Except.ok s2
      | some id => aize_mem_add_mem s2 (some id)

/-- `void aize_mem_exit() { aize_mem_collect(); aize_mem_depth -= 1; }` -/
def aize_mem_exit (s : AizeState) : Except String AizeState :=
  match aize_mem_collect s with
  | Except.error e => Except.error e
  | Except.ok s1 => Except.ok { s1 with depth := (s1.depth + (U32 - 1)) % U32 }

/-- Modelled from the spec: `markForReturn(objectRef)` is not in src/ (it would
live in compiler-generated code); per the spec it "sets `objectRef.depth = 0`
(sentinel)". -/
def markForReturn (s : AizeState) (id : Nat) : AizeState :=
  match s.heap[id]? with
  | none => s
  | some ob => { s with heap := s.heap.set id { ob with depth := some 0 } }

/-- Unwrap an `Except`-valued state, falling back to `d` on error. -/
def orD (e : Except String AizeState) (d : AizeState) : AizeState :=
  match e with
  | Except.ok s => s
  | Except.error _ => d

/-- Concrete scenario of §8: state after `aize_mem_enter()` from the initial
state (depth 2, empty ledger). -/
def c1s1 : AizeState := aize_mem_enter initState

/-- State after the first `aize_mem_malloc` of the scenario: object `0`
(uninitialized header) registered at slot 0. -/
def c1s2 : AizeState := orD (aize_mem_malloc c1s1 16 true).1 initState

/-- State after the second `aize_mem_malloc` of the scenario: objects `0`, `1`
registered at slots 0, 1, `len = 2`. -/
def c1s3 : AizeState := orD (aize_mem_malloc c1s2 16 true).1 initState

/-- Promotion scenario: allocate one object at depth 2, then mark it for
return (its `depth` field becomes the sentinel `0`). -/
def c2s : AizeState := markForReturn c1s2 0

/-- A depth-2 state with two fully initialized depth-2, zero-`ref_count`
objects in the ledger (headers written by the external collaborator code that
the calling convention of §6 assumes). -/
def c4s : AizeState :=
  { capacity := 256, len := 2, arrBytes := 256,
    slots := [Slot.val (some 0), Slot.val (some 1)] ++
      List.replicate 30 Slot.uninit,
    heap := [{ depth := some 2, ref_count := some 0 },
             { depth := some 2, ref_count := some 0 }],
    freed := [], depth := 2 }

/-- `n` consecutive `aize_mem_add_mem(NULL)` calls from the initial state. -/
def addNulls : Nat → Except String AizeState
  | 0 => Except.ok initState
  | n + 1 =>
    match addNulls n with
    | Except.error e => Except.error e
    | Except.ok s => aize_mem_add_mem s none

/-- A ledger state for exercising `aize_mem_pop_mem`: `capacity = 1024`,
`len = 270`, with a backing allocation that actually covers the 270 entries
(8192 bytes = 1024 slots), as the truncate contract presumes. -/
def c9s : AizeState :=
  { capacity := 1024, len := 270, arrBytes := 8192,
    slots := List.replicate 270 (Slot.val (none : Ptr)) ++
      List.replicate 754 Slot.uninit,
    heap := [], freed := [], depth := 1 }

/-- A depth-2 state whose top ledger entry (object `1`) is floating: its
`depth` is 2 (≥ current depth 2) and its `ref_count` is 5 (≠ 0). -/
def c10s : AizeState :=
  { capacity := 256, len := 2, arrBytes := 256,
    slots := [Slot.val (some 0), Slot.val (some 1)] ++
      List.replicate 30 Slot.uninit,
    heap := [{ depth := some 2, ref_count := some 0 },
             { depth := some 2, ref_count := some 5 }],
    freed := [], depth := 2 }

/-- The state produced by a failed `aize_mem_malloc` call at depth 2 from an
empty ledger: the NULL result of the raw `malloc` has been appended. -/
def c7after : AizeState := orD (aize_mem_malloc c1s1 16 false).1 initState

theorem clearRange_length (l : List Slot) (a b : Nat) :
    (clearRange l a b).length = l.length := by
  simp [clearRange]

theorem clearRange_getElem? (l : List Slot) (a b j : Nat) (hj : j < l.length)
    (ha : a ≤ j) (hb : j < b) :
    (clearRange l a b)[j]? = some (Slot.val none) := by
  simp [clearRange, List.getElem?_range hj, ha, hb]

theorem growSlots_length (l : List Slot) (nb : Nat) :
    (growSlots l nb).length = nb / ptrSize := by
  simp [growSlots]
  omega

theorem growSlots_getElem? (l : List Slot) (nb j : Nat) (hj : j < l.length)
    (hj2 : j < nb / ptrSize) : (growSlots l nb)[j]? = l[j]? := by
  unfold growSlots
  rw [List.getElem?_append_left (by simp; omega), List.getElem?_take]
  simp [hj2]

theorem growIfFull_freed (s : AizeState) : (growIfFull s).freed = s.freed := by
  unfold growIfFull
  split
  · split <;> rfl
  · rfl

theorem add_mem_freed (s : AizeState) (p : Ptr) (r : AizeState)
    (h : aize_mem_add_mem s p = Except.ok r) : r.freed = s.freed := by
  unfold aize_mem_add_mem at h
  split at h
  · cases h
    simpa using growIfFull_freed s
  · cases h

theorem pop_mem_freed (s : AizeState) (num : Nat) (r : AizeState)
    (h : aize_mem_pop_mem s num = Except.ok r) : r.freed = s.freed := by
  unfold aize_mem_pop_mem at h
  split at h
  · cases h
  · split at h
    · cases h
    · split at h <;> (cases h; rfl)

theorem collect_freed (s : AizeState) (r : AizeState)
    (h : aize_mem_collect s = Except.ok r) : r.freed = s.freed := by
  unfold aize_mem_collect at h
  split at h
  · cases h
  · split at h
    · cases h
    · rename_i s2 hpop
      split at h
      · cases h
        simpa using pop_mem_freed _ _ _ hpop
      · have h2 : s2.freed = s.freed := by
          simpa using pop_mem_freed _ _ _ hpop
        have h3 := add_mem_freed _ _ _ h
        rw [h3, h2]

/-- C1: the concrete scenario — depth 1, empty ledger, `enter()`, two
`allocate()` calls, `exit()` — does not behave as the claim states on the
code: the two allocated headers are never initialized (`aize_mem_malloc`
writes neither `depth` nor `ref_count`), and `exit()`'s collect scan starts
at index `len = 2`, reading the uninitialized slot one past the top, which is
undefined behavior, so the two objects are never evicted, the ledger length
is not restored, and the depth counter is not cleanly returned to 1. -/
theorem c1_scenario_fails :
    c1s3.depth = 2 ∧ c1s3.len = 2 ∧
    c1s3.heap[0]? = some { depth := none, ref_count := none } ∧
    c1s3.heap[1]? = some { depth := none, ref_count := none } ∧
    aize_mem_exit c1s3 = Except.error "use of uninitialized slot" :=
  ⟨rfl, rfl, rfl, rfl, rfl⟩

/-- C2: allocating `X` at depth 2 and marking it for return (depth field set
to the sentinel 0, per the spec's `markForReturn`) does not survive `exit()`:
the collect scan again begins at index `len = 1`, reading the uninitialized
slot one past the top — undefined behavior before the promotion logic is ever
reached, so `X` is not re-tagged to depth 1 and not re-appended. -/
theorem c2_promotion_fails :
    c2s.heap[0]? = some { depth := some 0, ref_count := none } ∧
    c2s.len = 1 ∧ c2s.depth = 2 ∧
    aize_mem_exit c2s = Except.error "use of uninitialized slot" :=
  ⟨rfl, rfl, rfl, rfl⟩

/-- C3: `enter()` immediately followed by `exit()` is not an identity even
once: from the initial state (empty ledger, `arr == NULL`, depth 1) the
collect scan's first read `arr[0]` dereferences into an unallocated buffer —
undefined behavior — instead of leaving the state unchanged. -/
theorem c3_enter_exit_not_identity :
    aize_mem_exit (aize_mem_enter initState) =
      Except.error "ledger read outside allocated buffer" :=
  rfl

/-- C4: the collect scan does not begin at the last valid index. On a
depth-2 state with two fully initialized entries (`len = 2`), both in-range
reads (indices 0 and 1) succeed, yet `aize_mem_collect` fails: its loop
`for (int i = len; i >= 0; i--)` begins at index `len = 2`, outside the valid
range `[0, len)`, and hits the uninitialized slot there. -/
theorem c4_scan_starts_past_top :
    c4s.len = 2 ∧
    scanStep c4s.slots c4s.depth c4s.heap 0 =
      Except.ok (StepRes.scont c4s.heap none) ∧
    scanStep c4s.slots c4s.depth c4s.heap 1 =
      Except.ok (StepRes.scont c4s.heap none) ∧
    aize_mem_collect c4s = Except.error "use of uninitialized slot" :=
  ⟨rfl, rfl, rfl, rfl⟩

/-- C5: `aize_mem_malloc` registers the newly created object in the ledger
(slot 0 holds the pointer to object 0 afterward) but has no `return`
statement, so it provides no defined return value to the caller (modelled as
`none` in the second component). -/
theorem c5_malloc_returns_no_reference :
    (aize_mem_malloc c1s1 16 true).2 = none ∧
    (aize_mem_malloc c1s1 16 true).1 = Except.ok c1s2 ∧
    c1s2.slots[0]? = some (Slot.val (some 0)) ∧
    c1s2.len = 1 :=
  ⟨rfl, rfl, rfl, rfl⟩

/-- C6: eviction never releases storage: neither `aize_mem_pop_mem` (which
only clears ledger cells and decrements `len`) nor `aize_mem_collect` ever
changes the record of released storage — the C file contains no call to
`free` at all, so no evicted object's storage is released. -/
theorem c6_no_storage_released (s : AizeState) (num : Nat) :
    (aize_mem_pop_mem s num).map AizeState.freed =
      (aize_mem_pop_mem s num).map (fun _ => s.freed) ∧
    (aize_mem_collect s).map AizeState.freed =
      (aize_mem_collect s).map (fun _ => s.freed) := by
  constructor
  · cases h : aize_mem_pop_mem s num with
    | error e => rfl
    | ok r => simp [Except.map, pop_mem_freed s num r h]
  · cases h : aize_mem_collect s with
    | error e => rfl
    | ok r => simp [Except.map, collect_freed s r h]

/-- C7: when the raw `malloc` inside `aize_mem_malloc` fails, the NULL result
is still passed to `aize_mem_add_mem` and registered: from the depth-2 empty
ledger, the ledger length grows from 0 to 1 and slot 0 holds NULL, while no
object was created. -/
theorem c7_failed_alloc_registered :
    (aize_mem_malloc c1s1 16 false).1 = Except.ok c7after ∧
    c1s1.len = 0 ∧
    c7after.len = 1 ∧
    c7after.slots[0]? = some (Slot.val none) ∧
    c7after.heap = c1s1.heap :=
  ⟨rfl, rfl, rfl, rfl, rfl⟩

set_option maxRecDepth 20000 in
/-- C8: `aize_mem_add_mem` writes outside the storage actually allocated for
the backing buffer: from the empty ledger, the first append allocates
`START_SIZE = 256` bytes (32 pointer-sized entries) while setting the
`capacity` field to 256 entries, so after 32 appends (`len = 32`, the whole
allocation written) the 33rd append stores to index 32 — outside the 256
allocated bytes. -/
theorem c8_append_writes_outside_allocation :
    (orD (addNulls 32) initState).len = 32 ∧
    (orD (addNulls 32) initState).capacity = 256 ∧
    (orD (addNulls 32) initState).arrBytes = 256 ∧
    (orD (addNulls 32) initState).slots.length * ptrSize = 256 ∧
    addNulls 33 = Except.error "ledger write outside allocated buffer" :=
  ⟨rfl, rfl, rfl, rfl, rfl⟩

set_option maxRecDepth 20000 in
/-- C9 counterexample: on a ledger with `capacity = 1024` and `len = 270`,
`aize_mem_pop_mem 10` halves the capacity to 512 although the post-truncation
length 260 does *not* fall under a quarter of the capacity (260 ≥ 256): the
code's shrink test subtracts `num` from the already-decremented length. -/
theorem c9_shrink_condition_counterexample :
    c9s.capacity = 1024 ∧ c9s.len = 270 ∧
    ¬(c9s.len - 10 < c9s.capacity / SHRINK_WHEN) ∧
    (orD (aize_mem_pop_mem c9s 10) initState).capacity = 512 :=
  ⟨rfl, rfl, by decide, rfl⟩

/-- C9 (amended): for `n ≤ len` with the backing allocation covering the
`len` entries, `aize_mem_pop_mem n` clears the top `n` slots, reduces the
length by `n`, and halves the capacity exactly when the capacity exceeds
`SCALE_FACTOR * START_SIZE` and the post-truncation length *minus `n` again*
(computed with `size_t` wraparound) falls under a quarter of the capacity;
otherwise the capacity is unchanged. -/
theorem c9_pop_mem_characterization (s : AizeState) (n : Nat)
    (h1 : n ≤ s.len) (h2 : s.len ≤ s.slots.length) :
    ∃ r, aize_mem_pop_mem s n = Except.ok r ∧
      r.len = s.len - n ∧
      (∀ j, s.len - n ≤ j → j < s.len → j < r.slots.length →
        r.slots[j]? = some (Slot.val none)) ∧
      r.capacity =
        (if SCALE_FACTOR * START_SIZE < s.capacity ∧
            wrapSub64 (s.len - n) n < s.capacity / SHRINK_WHEN
         then s.capacity / SCALE_FACTOR else s.capacity) := by
  have hn : ¬(s.len < n) := by omega
  have hl : ¬(s.slots.length < s.len) := by omega
  unfold aize_mem_pop_mem
  rw [if_neg hn, if_neg hl]
  split
  · next hc =>
    refine ⟨_, rfl, rfl, ?_, rfl⟩
    intro j hju hjv hjw
    have hlen : j < s.capacity / SCALE_FACTOR / ptrSize := by
      simpa [growSlots_length] using hjw
    rw [growSlots_getElem? _ _ _ (by rw [clearRange_length]; omega) hlen]
    exact clearRange_getElem? _ _ _ _ (by omega) hju hjv
  · next hc =>
    refine ⟨_, rfl, rfl, ?_, rfl⟩
    intro j hju hjv hjw
    exact clearRange_getElem? _ _ _ _ (by omega) hju hjv

set_option maxRecDepth 20000 in
/-- Witness for C9's amended characterization at the concrete state `c9s`
with `n = 10`. -/
theorem c9_pop_mem_characterization_witness :
    ∃ r, aize_mem_pop_mem c9s 10 = Except.ok r ∧
      r.len = c9s.len - 10 ∧
      (∀ j, c9s.len - 10 ≤ j → j < c9s.len → j < r.slots.length →
        r.slots[j]? = some (Slot.val none)) ∧
      r.capacity =
        (if SCALE_FACTOR * START_SIZE < c9s.capacity ∧
            wrapSub64 (c9s.len - 10) 10 < c9s.capacity / SHRINK_WHEN
         then c9s.capacity / SCALE_FACTOR else c9s.capacity) :=
  c9_pop_mem_characterization c9s 10 (by decide) (by simp [c9s])

/-- C10 counterexample: the floating entry of `c10s` (object 1, depth 2 ≥
current depth 2, `ref_count = 5 ≠ 0`) is *not* truncated from the ledger by
`aize_mem_collect`: the scan first reads the uninitialized slot at index
`len = 2` — undefined behavior — so the collection never completes at all. -/
theorem c10_collect_never_reaches_floating :
    c10s.heap[1]? = some { depth := some 2, ref_count := some 5 } ∧
    c10s.slots[1]? = some (Slot.val (some 1)) ∧
    c10s.len = 2 ∧ c10s.depth = 2 ∧
    aize_mem_collect c10s = Except.error "use of uninitialized slot" :=
  ⟨rfl, rfl, rfl, rfl, rfl⟩

/-- C10 (amended): within the collect scan loop, an in-bounds entry holding an
initialized floating object (`depth ≥ current`, `ref_count ≠ 0`) falls into
the empty TODO branch and is handled exactly like a zero-reference entry: the
scan counts it for removal (`num + 1`) and continues downward with the heap
unchanged (no re-tag) and `ret_obj` unchanged (no re-append); its storage is
not released. Every actual `aize_mem_collect` call, however, fails at its
initial out-of-bounds read before the truncation is performed. -/
theorem c10_floating_entry_scan_step (slots : List Slot) (curd i num : Nat)
    (heap : List AizeBase) (ret : Option Nat) (id d rc : Nat)
    (hslot : slots[i + 1]? = some (Slot.val (some id)))
    (hobj : heap[id]? = some { depth := some d, ref_count := some rc })
    (hd : curd ≤ d) (_hrc : rc ≠ 0) :
    collectScan slots curd (i + 1) heap num ret =
      collectScan slots curd i heap (num + 1) ret := by
  have hstep : scanStep slots curd heap (i + 1) =
      Except.ok (StepRes.scont heap none) := by
    simp [scanStep, hslot, hobj, hd]
  rw [collectScan, hstep]
  rfl

/-- Witness for C10's amended scan-step characterization: the floating entry
(object 1) of `c10s` at index 1 is counted and skipped over. -/
theorem c10_floating_entry_scan_step_witness :
    collectScan c10s.slots 2 1 c10s.heap 0 none =
      collectScan c10s.slots 2 0 c10s.heap 1 none :=
  c10_floating_entry_scan_step c10s.slots 2 0 0 c10s.heap none 1 2 5
    (by rfl) (by rfl) (by decide) (by decide)

end AizeMem
